import Mathlib

/-!
Verification of the sublinkPro LLM client.

This file gives a shallow embedding of the Go package `services/llm`
(`GetConfig`, `buildEndpointURL`, `callAPI`, `OrganizeNodes`, `GenerateRules`,
`TestConnection`) and of the HTTP handlers in `api/llm.go`
(`LLMOrganizeNodes`, `LLMGenerateRules`), and proves the spec's claims
about them.

Modelling conventions:
* Go strings are Lean `String`s; Go byte-level operations (`strings.HasSuffix`,
  `strings.TrimRight`) are modelled at the character level, which coincides
  with the byte level on valid UTF-8 for the ASCII cut sets used here.
* The network is an oracle `net : HttpRequest → NetOutcome` standing for
  `http.Client.Do` plus `io.ReadAll`; each embedded function also returns the
  list of requests it put on the wire, so "number of network attempts" is the
  length of that trace.
* `encoding/json` marshalling of the outgoing request is modelled at the
  JSON-document level (`Json` below), respecting the struct tags of
  `ChatRequest` including `omitempty`; `json.Unmarshal` of the upstream body
  into `ChatResponse` is an oracle `parse : String → Option ChatResponse`.
  `json.Marshal` cannot fail on the value shapes used by this package, so the
  Go error paths `SerializationFailure` and the node-marshal failure are
  unreachable and the model makes marshalling total.
* The Go float64 literal `0.7` is modelled as the exact rational `7/10`.
* `models.GetSetting` and `protocol.GetProtocolFromLink` are not under `src/`;
  following the spec they are modelled as arbitrary string-valued functions
  supplied as parameters (`settings`, `gpfl`).
-/

/-- JSON document abstract syntax, modelling the documents produced by Go's
`encoding/json`; object fields are listed in emission order. -/
inductive Json where
  | str (s : String)
  | num (q : ℚ)
  | arr (elems : List Json)
  | obj (fields : List (String × Json))

/-- Go struct `ChatMessage` (tags `role`, `content`). -/
structure ChatMessage where
  Role : String
  Content : String
deriving DecidableEq

/-- Go struct `ChatRequest` (tags `model`, `messages`, `temperature,omitempty`,
`max_tokens,omitempty`). -/
structure ChatRequest where
  Model : String
  Messages : List ChatMessage
  Temperature : ℚ
  MaxTokens : Int

/-- Go struct `ChatChoice` (tags `index`, `message`). -/
structure ChatChoice where
  Index : Int
  Message : ChatMessage
deriving DecidableEq

/-- Go struct `ChatResponse` (tags `id`, `choices`). -/
structure ChatResponse where
  ID : String
  Choices : List ChatChoice
deriving DecidableEq

/-- Go struct `LLMConfig`. -/
structure LLMConfig where
  APIUrl : String
  APIKey : String
  Model : String
deriving DecidableEq

/-- The error values produced by the package, one constructor per
`fmt.Errorf` site that is reachable in the model.  Payloads record the data
interpolated into the Go error string (see `LLMError.message`). -/
inductive LLMError where
  | missingAPIUrl
  | missingAPIKey
  | networkFailure (msg : String)
  | readFailure (msg : String)
  | upstreamError (status : ℕ) (body : String)
  | responseParseFailure
  | emptyChoices
  | emptyContent
deriving DecidableEq

/-- The Go error strings of `LLMError` values. -/
def LLMError.message : LLMError → String
  | .missingAPIUrl => "LLM API URL 未配置"
  | .missingAPIKey => "LLM API Key 未配置"
  | .networkFailure msg => "请求LLM API失败: " ++ msg
  | .readFailure msg => "读取响应失败: " ++ msg
  | .upstreamError status body => "LLM API返回错误 (HTTP " ++ toString status ++ "): " ++ body
  | .responseParseFailure => "解析响应失败"
  | .emptyChoices => "LLM API未返回有效结果"
  | .emptyContent => "LLM API返回空结果"

/-- Outcome of one network round trip (`http.Client.Do` followed by
`io.ReadAll`): transport failure, body-read failure, or an HTTP response with
a status code and a raw body. -/
inductive NetOutcome where
  | doFailure (msg : String)
  | readFailure (msg : String)
  | response (status : ℕ) (body : String)

/-- Go `strings.HasSuffix` at the character level. -/
def hasSuffix (s suf : String) : Bool :=
  suf.data.isSuffixOf s.data

/-- Go `strings.TrimRight(s, "/")`: remove every trailing '/' character. -/
def trimRightSlash (s : String) : String :=
  String.mk (s.data.rdropWhile fun c => c == '/')

/-- Embedding of `buildEndpointURL` (part_000 lines 75-83). -/
def buildEndpointURL (apiUrl : String) : String :=
  if hasSuffix apiUrl "/chat/completions" then apiUrl
  else if hasSuffix apiUrl "/v1" then apiUrl ++ "/chat/completions"
  else trimRightSlash apiUrl ++ "/v1/chat/completions"

/-- `encoding/json` marshalling of a `ChatMessage`. -/
def encodeChatMessage (m : ChatMessage) : Json :=
  .obj [("role", .str m.Role), ("content", .str m.Content)]

/-- `encoding/json` marshalling of a `ChatRequest`: fields in struct order,
with `temperature` and `max_tokens` dropped at their zero values per
`omitempty`. -/
def encodeChatRequest (r : ChatRequest) : Json :=
  .obj ([("model", .str r.Model), ("messages", .arr (r.Messages.map encodeChatMessage))] ++
    (if r.Temperature = 0 then [] else [("temperature", .num r.Temperature)]) ++
    (if r.MaxTokens = 0 then [] else [("max_tokens", .num (r.MaxTokens : ℚ))]))

/-- The request value built at the top of `callAPI` (part_000 lines 87-91):
model from the configuration, the caller's messages, temperature 0.7, and no
max-token cap. -/
def chatRequestOf (config : LLMConfig) (messages : List ChatMessage) : ChatRequest :=
  ⟨config.Model, messages, 7/10, 0⟩

/-- An outbound HTTP request as constructed by `callAPI` (part_000 lines
98-106): normalized endpoint URL, the two headers it sets, and the marshalled
body. -/
structure HttpRequest where
  url : String
  contentType : String
  authorization : String
  body : Json

/-- The single request `callAPI` sends for a given configuration and message
sequence. -/
def apiRequest (config : LLMConfig) (messages : List ChatMessage) : HttpRequest :=
  ⟨buildEndpointURL config.APIUrl, "application/json", "Bearer " ++ config.APIKey,
    encodeChatRequest (chatRequestOf config messages)⟩

/-- Embedding of `callAPI` (part_000 lines 86-134).  Returns the result
together with the trace of requests put on the wire (always exactly one:
the body of `callAPI` contains a single `client.Do`). -/
def callAPI (parse : String → Option ChatResponse) (net : HttpRequest → NetOutcome)
    (config : LLMConfig) (messages : List ChatMessage) :
    Except LLMError String × List HttpRequest :=
  let req := apiRequest config messages
  let result : Except LLMError String :=
    match net req with
    | .doFailure msg => .error (.networkFailure msg)
    | .readFailure msg => .error (.readFailure msg)
    | .response status body =>
      if status ≠ 200 then .error (.upstreamError status body)
      else
        match parse body with
        | none => .error .responseParseFailure
        | some chatResp =>
          match chatResp.Choices with
          | [] => .error .emptyChoices
          | choice :: _ => .ok choice.Message.Content
  (result, [req])

/-- Embedding of `GetConfig` (part_000 lines 52-72).  `settings` models
`models.GetSetting` per the spec: a get-by-key string lookup that returns the
empty string when a key is absent (the ignored error return is dropped). -/
def GetConfig (settings : String → String) : Except LLMError LLMConfig :=
  let apiUrl := settings "llm_api_url"
  let apiKey := settings "llm_api_key"
  let model := settings "llm_model"
  if apiUrl = "" then .error .missingAPIUrl
  else if apiKey = "" then .error .missingAPIKey
  else .ok ⟨apiUrl, apiKey, if model = "" then "gpt-3.5-turbo" else model⟩

/-- Go struct `NodeInfo` (tags `id`, `name`, `protocol`, `country`, `group`). -/
structure NodeInfo where
  ID : Int
  Name : String
  Protocol : String
  Country : String
  Group : String
deriving DecidableEq

/-- Hexadecimal digit character (lower case), used by the JSON escaper. -/
def hexDigit (n : ℕ) : Char :=
  if n < 10 then Char.ofNat (48 + n) else Char.ofNat (87 + n)

/-- `encoding/json` escaping of a single character inside a string literal
(default Go escaper: quotes, backslash, the HTML-sensitive characters, and
control characters). -/
def escapeJsonChar (c : Char) : String :=
  if c = '"' then "\\\""
  else if c = '\\' then "\\\\"
  else if c = '<' then "\\u003c"
  else if c = '>' then "\\u003e"
  else if c = '&' then "\\u0026"
  else if c = '\n' then "\\n"
  else if c = '\r' then "\\r"
  else if c = '\t' then "\\t"
  else if c.toNat < 32 then "\\u00" ++ String.mk [hexDigit (c.toNat / 16), hexDigit (c.toNat % 16)]
  else String.mk [c]

/-- `encoding/json` rendering of a string literal. -/
def escapeJsonString (s : String) : String :=
  "\"" ++ String.join (s.data.map escapeJsonChar) ++ "\""

/-- `json.Marshal` of one `NodeInfo`, fields in struct-tag order. -/
def renderNodeInfo (n : NodeInfo) : String :=
  "\x7b\"id\":" ++ toString n.ID ++ ",\"name\":" ++ escapeJsonString n.Name ++
    ",\"protocol\":" ++ escapeJsonString n.Protocol ++
    ",\"country\":" ++ escapeJsonString n.Country ++
    ",\"group\":" ++ escapeJsonString n.Group ++ "\x7d"

/-- `json.Marshal` of a `[]NodeInfo` (the `nodesJSON` string embedded in the
user prompts). -/
def renderNodes (nodes : List NodeInfo) : String :=
  "[" ++ String.intercalate "," (nodes.map renderNodeInfo) ++ "]"

/-- The fixed system prompt of `OrganizeNodes` (part_000 lines 157-175). -/
def organizeSystemPrompt : String :=
  "你是一个代理节点整理助手。你的任务是根据用户的指令，对代理节点进行分类、整理和建议。\n请以JSON格式返回结果。\n\n返回格式要求:\n\x7b\n  \"groups\": [\n    \x7b\n      \"name\": \"分组名称\",\n      \"nodeIds\": [1, 2, 3],\n      \"description\": \"分组说明\"\n    \x7d\n  ],\n  \"suggestions\": \"整理建议和说明\"\n\x7d\n\n注意：\n- nodeIds必须使用原始节点的id\n- 只返回JSON，不要包含其他内容\n- 分组名称应该简洁明了"

/-- The user prompt of `OrganizeNodes` (part_000 lines 177-180): the default
wording when the instruction is empty, the instruction-carrying wording
otherwise (the Go code assigns the latter and overwrites it in the empty
case, which is the same function). -/
def organizeUserPrompt (nodesJSON instruction : String) : String :=
  if instruction = "" then
    "以下是需要整理的节点列表：\n" ++ nodesJSON ++ "\n\n请按照地区和协议对节点进行分组整理。"
  else
    "以下是需要整理的节点列表：\n" ++ nodesJSON ++ "\n\n用户指令：" ++ instruction

/-- The two-message conversation `OrganizeNodes` sends (part_000 lines
182-185). -/
def organizeMessages (nodesJSON instruction : String) : List ChatMessage :=
  [⟨"system", organizeSystemPrompt⟩, ⟨"user", organizeUserPrompt nodesJSON instruction⟩]

/-- Embedding of `OrganizeNodes` (part_000 lines 146-194); the success path
returns `callAPI`'s result unchanged (the `utils.Info` log line is dropped). -/
def OrganizeNodes (settings : String → String) (parse : String → Option ChatResponse)
    (net : HttpRequest → NetOutcome) (nodes : List NodeInfo) (instruction : String) :
    Except LLMError String × List HttpRequest :=
  match GetConfig settings with
  | .error e => (.error e, [])
  | .ok config =>
    let nodesJSON := renderNodes nodes
    callAPI parse net config (organizeMessages nodesJSON instruction)

/-- The `clash` branch of the format-description switch in `GenerateRules`
(part_000 lines 210-215). -/
def clashFormatDesc : String :=
  "Clash/Mihomo YAML格式的rules部分。示例格式:\nrules:\n  - DOMAIN-SUFFIX,google.com,节点分组名\n  - GEOIP,CN,DIRECT\n  - MATCH,节点分组名"

/-- The `surge` branch of the format-description switch (part_000 lines
216-221). -/
def surgeFormatDesc : String :=
  "Surge规则格式。示例格式:\n[Rule]\nDOMAIN-SUFFIX,google.com,节点分组名\nGEOIP,CN,DIRECT\nFINAL,节点分组名"

/-- The default branch of the format-description switch (part_000 lines
222-223). -/
def defaultFormatDesc : String := "通用代理规则格式"

/-- The format-description switch of `GenerateRules` (part_000 lines
208-224). -/
def formatDesc (clientType : String) : String :=
  if clientType = "clash" then clashFormatDesc
  else if clientType = "surge" then surgeFormatDesc
  else defaultFormatDesc

/-- The system prompt of `GenerateRules` (part_000 lines 226-247): the Go
`fmt.Sprintf` template with `clientType` and `formatDesc clientType`
interpolated. -/
def generateSystemPrompt (clientType : String) : String :=
  "你是一个代理订阅规则生成助手。根据用户提供的节点信息和需求，生成合适的" ++ clientType ++
    "订阅规则。\n\n规则格式要求：" ++ formatDesc clientType ++
    "\n\n请以JSON格式返回结果：\n\x7b\n  \"rules\": \"生成的规则内容（字符串形式）\",\n  \"proxyGroups\": [\n    \x7b\n      \"name\": \"分组名称\",\n      \"type\": \"select/url-test/fallback\",\n      \"nodeIds\": [1, 2, 3]\n    \x7d\n  ],\n  \"description\": \"规则说明\"\n\x7d\n\n注意：\n- 只返回JSON，不要包含其他内容\n- 规则应该包含常用的分流规则（如国内直连、国外代理等）\n- 代理组名称应该简洁明了\n- nodeIds必须使用原始节点的id"

/-- The user prompt of `GenerateRules` (part_000 lines 249-254). -/
def generateUserPrompt (nodesJSON instruction : String) : String :=
  "以下是可用的节点列表：\n" ++ nodesJSON ++ "\n\n" ++
    (if instruction ≠ "" then "用户需求：" ++ instruction
     else "请根据节点的地区和类型，生成合适的代理分流规则。包含国内直连、国外代理、流媒体分流等常用规则。")

/-- The two-message conversation `GenerateRules` sends (part_000 lines
256-259). -/
def generateMessages (nodesJSON clientType instruction : String) : List ChatMessage :=
  [⟨"system", generateSystemPrompt clientType⟩,
   ⟨"user", generateUserPrompt nodesJSON instruction⟩]

/-- Embedding of `GenerateRules` (part_000 lines 197-268). -/
def GenerateRules (settings : String → String) (parse : String → Option ChatResponse)
    (net : HttpRequest → NetOutcome) (nodes : List NodeInfo)
    (clientType instruction : String) :
    Except LLMError String × List HttpRequest :=
  match GetConfig settings with
  | .error e => (.error e, [])
  | .ok config =>
    let nodesJSON := renderNodes nodes
    callAPI parse net config (generateMessages nodesJSON clientType instruction)

/-- Embedding of `TestConnection` (part_000 lines 271-286). -/
def TestConnection (parse : String → Option ChatResponse) (net : HttpRequest → NetOutcome)
    (config : LLMConfig) : Except LLMError Unit × List HttpRequest :=
  match callAPI parse net config [⟨"user", "请回复 ok"⟩] with
  | (.error e, t) => (.error e, t)
  | (.ok result, t) =>
    if result = "" then (.error .emptyContent, t) else (.ok (), t)

/-- A node record as bound from the request JSON by the handlers in
`api/llm.go` (fields `id`, `name`, `link`, `country`, `group`). -/
structure ReqNode where
  ID : Int
  Name : String
  Link : String
  Country : String
  Group : String
deriving DecidableEq

/-- The per-node conversion in the handlers (`api/llm.go` lines 36-44 and
86-94); `gpfl` models `protocol.GetProtocolFromLink`, which is not under
`src/` and per the spec derives a protocol tag from the link. -/
def toNodeInfo (gpfl : String → String) (n : ReqNode) : NodeInfo :=
  ⟨n.ID, n.Name, gpfl n.Link, n.Country, n.Group⟩

/-- The handlers' append loop over the bound nodes, as a map. -/
def handlerNodes (gpfl : String → String) (ns : List ReqNode) : List NodeInfo :=
  ns.map (toNodeInfo gpfl)

/-- The JSON request body bound by `LLMOrganizeNodes`. -/
structure OrganizeRequest where
  Nodes : List ReqNode
  Instruction : String
deriving DecidableEq

/-- The JSON request body bound by `LLMGenerateRules`. -/
structure GenerateRequest where
  Nodes : List ReqNode
  ClientType : String
  Instruction : String
deriving DecidableEq

/-- A handler's HTTP-level reply: `utils.FailWithMsg` or `utils.OkDetailed`. -/
inductive HandlerResponse where
  | fail (msg : String)
  | okDetailed (msg : String) (result : String)
deriving DecidableEq

/-- Embedding of the handler `LLMOrganizeNodes` (`api/llm.go` lines 12-55);
`req = none` models a JSON-binding failure. -/
def LLMOrganizeNodes (settings : String → String) (gpfl : String → String)
    (parse : String → Option ChatResponse) (net : HttpRequest → NetOutcome)
    (req : Option OrganizeRequest) : HandlerResponse × List HttpRequest :=
  match req with
  | none => (.fail "参数错误", [])
  | some r =>
    if r.Nodes.length = 0 then (.fail "节点列表不能为空", [])
    else
      let nodes := handlerNodes gpfl r.Nodes
      match OrganizeNodes settings parse net nodes r.Instruction with
      | (.error e, t) => (.fail ("LLM整理失败: " ++ e.message), t)
      | (.ok result, t) => (.okDetailed "整理完成" result, t)

/-- Embedding of the handler `LLMGenerateRules` (`api/llm.go` lines 58-106). -/
def LLMGenerateRules (settings : String → String) (gpfl : String → String)
    (parse : String → Option ChatResponse) (net : HttpRequest → NetOutcome)
    (req : Option GenerateRequest) : HandlerResponse × List HttpRequest :=
  match req with
  | none => (.fail "参数错误", [])
  | some r =>
    if r.Nodes.length = 0 then (.fail "节点列表不能为空", [])
    else
      let clientType := if r.ClientType = "" then "clash" else r.ClientType
      let nodes := handlerNodes gpfl r.Nodes
      match GenerateRules settings parse net nodes clientType r.Instruction with
      | (.error e, t) => (.fail ("规则生成失败: " ++ e.message), t)
      | (.ok result, t) => (.okDetailed "生成完成" result, t)

/-- Projection of `Json` object fields, for stating facts about marshalled
request bodies. -/
def Json.objFields : Json → List (String × Json)
  | .obj fs => fs
  | _ => []

/-- Two strings with the same character data are equal. -/
theorem string_eq_of_data {a b : String} (h : a.data = b.data) : a = b :=
  congrArg String.mk h

/-- After `trimRightSlash` no trailing '/' remains. -/
theorem trimRightSlash_no_trailing (s : String) :
    hasSuffix (trimRightSlash s) "/" = false := by
  by_contra hcon
  have htrue : hasSuffix (trimRightSlash s) "/" = true := by
    revert hcon
    cases hasSuffix (trimRightSlash s) "/" <;> simp
  have hsuf : "/".data <:+ (trimRightSlash s).data := by
    rw [← List.isSuffixOf_iff_suffix]
    exact htrue
  obtain ⟨t, ht⟩ := hsuf
  have hd : (trimRightSlash s).data = s.data.rdropWhile (fun c => c == '/') := rfl
  rw [hd] at ht
  have ht' : t ++ ['/'] = s.data.rdropWhile (fun c => c == '/') := ht
  have hne : s.data.rdropWhile (fun c => c == '/') ≠ [] := by
    rw [← ht']
    simp
  have hlast := List.rdropWhile_last_not (fun c => c == '/') s.data hne
  have hsome : (s.data.rdropWhile (fun c => c == '/')).getLast? = some '/' := by
    rw [← ht']
    exact List.getLast?_concat t
  rw [List.getLast?_eq_getLast _ hne] at hsome
  have heq : (s.data.rdropWhile (fun c => c == '/')).getLast hne = '/' := by
    simpa using hsome
  rw [heq] at hlast
  simp at hlast

/-- C1: the endpoint URL normalization implements the three-way rule in
order: a URL ending in "/chat/completions" is returned unchanged; otherwise
a URL ending in "/v1" gets exactly "/chat/completions" appended (so the
result is the stem followed by a single "/v1/chat/completions"); any other
URL has all trailing '/' stripped and then "/v1/chat/completions" appended
exactly once, with no duplicated separator. -/
theorem buildEndpointURL_normalization (s : String) :
    (hasSuffix s "/chat/completions" = true → buildEndpointURL s = s) ∧
    (hasSuffix s "/chat/completions" = false → hasSuffix s "/v1" = true →
      ∃ t, s = t ++ "/v1" ∧ buildEndpointURL s = t ++ "/v1/chat/completions") ∧
    (hasSuffix s "/chat/completions" = false → hasSuffix s "/v1" = false →
      buildEndpointURL s = trimRightSlash s ++ "/v1/chat/completions" ∧
      hasSuffix (trimRightSlash s) "/" = false) := by
  refine ⟨fun h => by simp [buildEndpointURL, h], fun h1 h2 => ?_,
    fun h1 h2 => ⟨by simp [buildEndpointURL, h1, h2], trimRightSlash_no_trailing s⟩⟩
  have h2' : "/v1".data <:+ s.data := by
    rw [← List.isSuffixOf_iff_suffix]
    exact h2
  obtain ⟨t, ht⟩ := h2'
  refine ⟨String.mk t, string_eq_of_data ?_, ?_⟩
  · rw [String.data_append]
    exact ht.symm
  · have hb : buildEndpointURL s = s ++ "/chat/completions" := by
      simp [buildEndpointURL, h1, h2]
    rw [hb]
    refine string_eq_of_data ?_
    rw [String.data_append, String.data_append, ← ht]
    simp

/-- Witness for C1 at the spec's own example input. -/
theorem buildEndpointURL_normalization_witness :
    hasSuffix "https://api.openai.com" "/chat/completions" = false ∧
    hasSuffix "https://api.openai.com" "/v1" = false ∧
    buildEndpointURL "https://api.openai.com" =
      trimRightSlash "https://api.openai.com" ++ "/v1/chat/completions" ∧
    hasSuffix (trimRightSlash "https://api.openai.com") "/" = false :=
  ⟨by decide, by decide,
    ((buildEndpointURL_normalization "https://api.openai.com").2.2 (by decide) (by decide)).1,
    ((buildEndpointURL_normalization "https://api.openai.com").2.2 (by decide) (by decide)).2⟩

/-- C2: on a 200 response whose body parses with at least one choice,
`callAPI` returns the content of the first choice unchanged (the content is
an arbitrary string; no validation constrains it). -/
theorem callAPI_success_first_choice (parse : String → Option ChatResponse)
    (net : HttpRequest → NetOutcome) (config : LLMConfig) (messages : List ChatMessage)
    (body : String) (resp : ChatResponse) (c : ChatChoice) (cs : List ChatChoice)
    (hnet : net (apiRequest config messages) = NetOutcome.response 200 body)
    (hparse : parse body = some resp) (hchoices : resp.Choices = c :: cs) :
    (callAPI parse net config messages).1 = .ok c.Message.Content := by
  simp [callAPI, hnet, hparse, hchoices]

/-- Witness for C2: a mocked upstream returning one choice with content
"hello". -/
theorem callAPI_success_first_choice_witness :
    (callAPI (fun _ => some ⟨"id-1", [⟨0, ⟨"assistant", "hello"⟩⟩]⟩)
      (fun _ => NetOutcome.response 200 "BODY")
      ⟨"https://api.openai.com", "sk-test", "gpt-4"⟩
      [⟨"user", "hi"⟩]).1 = .ok "hello" :=
  callAPI_success_first_choice _ _ _ _ "BODY" ⟨"id-1", [⟨0, ⟨"assistant", "hello"⟩⟩]⟩
    ⟨0, ⟨"assistant", "hello"⟩⟩ [] rfl rfl rfl

/-- C3 (amended): for an upstream response, `callAPI` yields the
upstream-error outcome exactly when the status differs from 200, the error
carries that status and the raw body, success implies status 200, and exactly
one network request is traced per invocation. -/
theorem callAPI_upstream_error_iff_non200 (parse : String → Option ChatResponse)
    (net : HttpRequest → NetOutcome) (config : LLMConfig) (messages : List ChatMessage)
    (status : ℕ) (body : String)
    (hnet : net (apiRequest config messages) = NetOutcome.response status body) :
    ((callAPI parse net config messages).1 = .error (.upstreamError status body) ↔
      status ≠ 200) ∧
    (∀ s b, (callAPI parse net config messages).1 = .error (.upstreamError s b) →
      s = status ∧ b = body ∧ status ≠ 200) ∧
    (∀ content, (callAPI parse net config messages).1 = .ok content → status = 200) ∧
    (callAPI parse net config messages).2.length = 1 := by
  by_cases hs : status = 200
  · subst hs
    refine ⟨?_, ?_, ?_, rfl⟩
    · simp only [callAPI, hnet]
      constructor
      · intro h
        cases hp : parse body with
        | none => simp [hp] at h
        | some resp =>
          cases hc : resp.Choices with
          | nil => simp [hp, hc] at h
          | cons c cs => simp [hp, hc] at h
      · intro h
        exact absurd rfl h
    · intro s b h
      simp only [callAPI, hnet] at h
      cases hp : parse body with
      | none => simp [hp] at h
      | some resp =>
        cases hc : resp.Choices with
        | nil => simp [hp, hc] at h
        | cons c cs => simp [hp, hc] at h
    · intro content _
      rfl
  · refine ⟨?_, ?_, ?_, rfl⟩
    · simp [callAPI, hnet, hs]
    · intro s b h
      simp [callAPI, hnet, hs] at h
      exact ⟨h.1.symm, h.2.symm, hs⟩
    · intro content h
      simp [callAPI, hnet, hs] at h

/-- Counterexample for C3 as frozen: status 204 is a 2xx success-class
status, yet `callAPI` produces the upstream-error outcome, so the outcome is
not "exactly when the status is non-2xx". -/
theorem callAPI_upstream_error_on_2xx_204 :
    (callAPI (fun _ => some ⟨"id-1", [⟨0, ⟨"assistant", "hello"⟩⟩]⟩)
      (fun _ => NetOutcome.response 204 "RAWBODY")
      ⟨"https://api.openai.com", "sk-test", "gpt-4"⟩ []).1 =
      .error (.upstreamError 204 "RAWBODY") ∧ 200 ≤ 204 ∧ 204 < 300 :=
  ⟨rfl, by decide, by decide⟩

/-- Witness for C3 (amended) at status 500. -/
theorem callAPI_upstream_error_iff_non200_witness :
    (callAPI (fun _ => none) (fun _ => NetOutcome.response 500 "oops")
      ⟨"https://api.openai.com", "sk-test", "gpt-4"⟩ []).1 =
      .error (.upstreamError 500 "oops") :=
  (callAPI_upstream_error_iff_non200 (fun _ => none)
    (fun _ => NetOutcome.response 500 "oops")
    ⟨"https://api.openai.com", "sk-test", "gpt-4"⟩ [] 500 "oops" rfl).1.mpr
    (by decide)

/-- C4: on a 200 response, an unparsable body yields the parse-failure error
and a parsable body with zero choices yields the empty-result error, and the
two errors are distinct. -/
theorem callAPI_parse_vs_empty_errors (parse : String → Option ChatResponse)
    (net : HttpRequest → NetOutcome) (config : LLMConfig) (messages : List ChatMessage)
    (body : String)
    (hnet : net (apiRequest config messages) = NetOutcome.response 200 body) :
    (parse body = none →
      (callAPI parse net config messages).1 = .error .responseParseFailure) ∧
    (∀ resp, parse body = some resp → resp.Choices = [] →
      (callAPI parse net config messages).1 = .error .emptyChoices) ∧
    LLMError.responseParseFailure ≠ LLMError.emptyChoices := by
  refine ⟨fun hp => ?_, fun resp hp hc => ?_, by decide⟩
  · simp [callAPI, hnet, hp]
  · simp [callAPI, hnet, hp, hc]

/-- Witness for C4: an upstream 200 with an unparsable body. -/
theorem callAPI_parse_vs_empty_errors_witness :
    (callAPI (fun _ => none) (fun _ => NetOutcome.response 200 "not json")
      ⟨"https://api.openai.com", "sk-test", "gpt-4"⟩ []).1 =
      .error .responseParseFailure :=
  (callAPI_parse_vs_empty_errors (fun _ => none)
    (fun _ => NetOutcome.response 200 "not json")
    ⟨"https://api.openai.com", "sk-test", "gpt-4"⟩ [] "not json" rfl).1 rfl

/-- C7: every invocation of `callAPI` puts exactly the request
`apiRequest config messages` on the wire, whose body is the JSON object with
fields `model` (the configured model), `messages` (the input sequence encoded
in order, roles and contents verbatim), and `temperature` 7/10, and no
`max_tokens` field. -/
theorem callAPI_request_body_shape (parse : String → Option ChatResponse)
    (net : HttpRequest → NetOutcome) (config : LLMConfig)
    (messages : List ChatMessage) :
    (callAPI parse net config messages).2 = [apiRequest config messages] ∧
    (apiRequest config messages).body =
      Json.obj [("model", .str config.Model),
                ("messages", .arr (messages.map encodeChatMessage)),
                ("temperature", .num (7/10))] ∧
    ((apiRequest config messages).body.objFields.lookup "temperature" =
      some (.num (7/10))) ∧
    ((apiRequest config messages).body.objFields.lookup "max_tokens" = none) ∧
    ((apiRequest config messages).body.objFields.lookup "model" =
      some (.str config.Model)) ∧
    ((apiRequest config messages).body.objFields.lookup "messages" =
      some (.arr (messages.map encodeChatMessage))) := by
  have hbody : (apiRequest config messages).body =
      Json.obj [("model", .str config.Model),
                ("messages", .arr (messages.map encodeChatMessage)),
                ("temperature", .num (7/10))] := by
    have h7 : ((7 : ℚ)/10) ≠ 0 := by norm_num
    simp [apiRequest, encodeChatRequest, chatRequestOf, h7]
  refine ⟨rfl, hbody, ?_, ?_, ?_, ?_⟩ <;>
    rw [hbody] <;> rfl

/-- C5: with an empty stored endpoint URL or API key, `OrganizeNodes` and
`GenerateRules` fail with the corresponding configuration error and an empty
network trace (no network call is attempted); with both present and only the
stored model empty, the configuration defaults the model to "gpt-3.5-turbo"
and the single network request is built from that configuration. -/
theorem config_gate_and_model_default (settings : String → String)
    (parse : String → Option ChatResponse) (net : HttpRequest → NetOutcome)
    (nodes : List NodeInfo) (clientType instruction : String) :
    (settings "llm_api_url" = "" →
      OrganizeNodes settings parse net nodes instruction =
        (.error .missingAPIUrl, []) ∧
      GenerateRules settings parse net nodes clientType instruction =
        (.error .missingAPIUrl, [])) ∧
    (settings "llm_api_url" ≠ "" → settings "llm_api_key" = "" →
      OrganizeNodes settings parse net nodes instruction =
        (.error .missingAPIKey, []) ∧
      GenerateRules settings parse net nodes clientType instruction =
        (.error .missingAPIKey, [])) ∧
    (settings "llm_api_url" ≠ "" → settings "llm_api_key" ≠ "" →
      settings "llm_model" = "" →
      GetConfig settings =
        .ok ⟨settings "llm_api_url", settings "llm_api_key", "gpt-3.5-turbo"⟩ ∧
      (OrganizeNodes settings parse net nodes instruction).2 =
        [apiRequest ⟨settings "llm_api_url", settings "llm_api_key", "gpt-3.5-turbo"⟩
          (organizeMessages (renderNodes nodes) instruction)] ∧
      (GenerateRules settings parse net nodes clientType instruction).2 =
        [apiRequest ⟨settings "llm_api_url", settings "llm_api_key", "gpt-3.5-turbo"⟩
          (generateMessages (renderNodes nodes) clientType instruction)]) := by
  refine ⟨fun h1 => ?_, fun h1 h2 => ?_, fun h1 h2 h3 => ?_⟩
  · constructor <;> simp [OrganizeNodes, GenerateRules, GetConfig, h1]
  · constructor <;> simp [OrganizeNodes, GenerateRules, GetConfig, h1, h2]
  · have hc : GetConfig settings =
        .ok ⟨settings "llm_api_url", settings "llm_api_key", "gpt-3.5-turbo"⟩ := by
      simp [GetConfig, h1, h2, h3]
    refine ⟨hc, ?_, ?_⟩ <;> simp [OrganizeNodes, GenerateRules, hc, callAPI]

/-- Witness for C5: a settings store holding only URL and key. -/
theorem config_gate_and_model_default_witness :
    GetConfig (fun k => if k = "llm_api_url" then "https://api.openai.com"
      else if k = "llm_api_key" then "sk-test" else "") =
      .ok ⟨"https://api.openai.com", "sk-test", "gpt-3.5-turbo"⟩ :=
  ((config_gate_and_model_default
    (fun k => if k = "llm_api_url" then "https://api.openai.com"
      else if k = "llm_api_key" then "sk-test" else "")
    (fun _ => none) (fun _ => NetOutcome.doFailure "down") [] "clash" "").2.2
    (by decide) (by decide) (by decide)).1

/-- Helper for C6: the handlers' node conversion yields equal sanitized lists
whenever the projections (id, name, derived protocol tag, country, group)
agree. -/
theorem handlerNodes_eq_of_proj_eq (gpfl : String → String) (l₁ l₂ : List ReqNode)
    (h : l₁.map (fun n => (n.ID, n.Name, gpfl n.Link, n.Country, n.Group)) =
      l₂.map (fun n => (n.ID, n.Name, gpfl n.Link, n.Country, n.Group))) :
    handlerNodes gpfl l₁ = handlerNodes gpfl l₂ := by
  induction l₁ generalizing l₂ with
  | nil =>
    cases l₂ with
    | nil => rfl
    | cons b bs => simp at h
  | cons a as ih =>
    cases l₂ with
    | nil => simp at h
    | cons b bs =>
      simp only [List.map_cons, List.cons.injEq, Prod.mk.injEq] at h
      obtain ⟨⟨h1, h2, h3, h4, h5⟩, ht⟩ := h
      have hrest := ih bs ht
      simp only [handlerNodes, List.map_cons] at hrest ⊢
      rw [List.cons.injEq]
      exact ⟨by simp [toNodeInfo, h1, h2, h3, h4, h5], hrest⟩

/-- C6: the chat messages built for the organize and generate operations
depend on the bound nodes only through the sanitized projection
(id, name, protocol tag derived from the link, country, group); link values
beyond their derived protocol tag never reach the messages. -/
theorem messages_depend_only_on_projection (gpfl : String → String)
    (ns₁ ns₂ : List ReqNode) (instruction clientType : String)
    (h : ns₁.map (fun n => (n.ID, n.Name, gpfl n.Link, n.Country, n.Group)) =
      ns₂.map (fun n => (n.ID, n.Name, gpfl n.Link, n.Country, n.Group))) :
    organizeMessages (renderNodes (handlerNodes gpfl ns₁)) instruction =
      organizeMessages (renderNodes (handlerNodes gpfl ns₂)) instruction ∧
    generateMessages (renderNodes (handlerNodes gpfl ns₁)) clientType instruction =
      generateMessages (renderNodes (handlerNodes gpfl ns₂)) clientType instruction := by
  rw [handlerNodes_eq_of_proj_eq gpfl ns₁ ns₂ h]
  exact ⟨rfl, rfl⟩

/-- Witness for C6: two requests whose nodes differ only in their link
secrets, with equal derived protocol tags. -/
theorem messages_depend_only_on_projection_witness :
    organizeMessages (renderNodes (handlerNodes (fun _ => "vmess")
      [⟨1, "node-a", "vmess://secret-one", "US", "g1"⟩])) "group them" =
    organizeMessages (renderNodes (handlerNodes (fun _ => "vmess")
      [⟨1, "node-a", "vmess://secret-two", "US", "g1"⟩])) "group them" :=
  (messages_depend_only_on_projection (fun _ => "vmess")
    [⟨1, "node-a", "vmess://secret-one", "US", "g1"⟩]
    [⟨1, "node-a", "vmess://secret-two", "US", "g1"⟩]
    "group them" "clash" rfl).1

/-- C8: `TestConnection` sends the single fixed user message "请回复 ok" and
succeeds exactly when the chat-completion call succeeds with non-empty text;
an empty returned text yields the dedicated empty-result error, distinct from
`callAPI`'s own empty-choices error, and call errors pass through. -/
theorem testConnection_iff (parse : String → Option ChatResponse)
    (net : HttpRequest → NetOutcome) (config : LLMConfig) :
    ((TestConnection parse net config).1 = .ok () ↔
      ∃ s, (callAPI parse net config [⟨"user", "请回复 ok"⟩]).1 = .ok s ∧ s ≠ "") ∧
    ((callAPI parse net config [⟨"user", "请回复 ok"⟩]).1 = .ok "" →
      (TestConnection parse net config).1 = .error .emptyContent) ∧
    (∀ e, (callAPI parse net config [⟨"user", "请回复 ok"⟩]).1 = .error e →
      (TestConnection parse net config).1 = .error e) ∧
    LLMError.emptyContent ≠ LLMError.emptyChoices := by
  rcases hres : callAPI parse net config [⟨"user", "请回复 ok"⟩] with ⟨r, t⟩
  cases r with
  | error e =>
    have hTC : TestConnection parse net config = (.error e, t) := by
      simp [TestConnection, hres]
    refine ⟨?_, ?_, ?_, by decide⟩
    · rw [hTC]
      constructor
      · intro h
        simp at h
      · rintro ⟨s, hs, -⟩
        simp at hs
    · intro h
      simp at h
    · intro e' he'
      obtain rfl : e = e' := by simpa using he'
      rw [hTC]
  | ok result =>
    have hTC : TestConnection parse net config =
        (if result = "" then (.error .emptyContent, t) else (.ok (), t)) := by
      simp [TestConnection, hres]
    by_cases hempty : result = ""
    · subst hempty
      refine ⟨?_, ?_, ?_, by decide⟩
      · rw [hTC]
        constructor
        · intro h
          simp at h
        · rintro ⟨s, hs, hs'⟩
          simp only [Except.ok.injEq] at hs
          exact absurd hs.symm hs'
      · intro _
        rw [hTC]
        rfl
      · intro e' he'
        simp at he'
    · refine ⟨?_, ?_, ?_, by decide⟩
      · rw [hTC, if_neg hempty]
        constructor
        · intro _
          exact ⟨result, rfl, hempty⟩
        · intro _
          rfl
      · intro h
        simp only [Except.ok.injEq] at h
        exact absurd h hempty
      · intro e' he'
        simp at he'

/-- Witness for C8: a mocked upstream whose single choice is "ok". -/
theorem testConnection_iff_witness :
    (TestConnection (fun _ => some ⟨"id-1", [⟨0, ⟨"assistant", "ok"⟩⟩]⟩)
      (fun _ => NetOutcome.response 200 "BODY")
      ⟨"https://api.openai.com", "sk-test", "gpt-4"⟩).1 = .ok () :=
  (testConnection_iff (fun _ => some ⟨"id-1", [⟨0, ⟨"assistant", "ok"⟩⟩]⟩)
    (fun _ => NetOutcome.response 200 "BODY")
    ⟨"https://api.openai.com", "sk-test", "gpt-4"⟩).1.mpr
    ⟨"ok", rfl, by decide⟩

/-- C9: the format-description switch of `GenerateRules` recognizes exactly
the tags "clash" and "surge", each mapped to its own format text, and every
other tag falls back to the single generic description; the three texts are
pairwise distinct. -/
theorem formatDesc_branching (s : String) :
    formatDesc "clash" = clashFormatDesc ∧
    formatDesc "surge" = surgeFormatDesc ∧
    (s ≠ "clash" → s ≠ "surge" → formatDesc s = defaultFormatDesc) ∧
    clashFormatDesc ≠ surgeFormatDesc ∧
    clashFormatDesc ≠ defaultFormatDesc ∧
    surgeFormatDesc ≠ defaultFormatDesc := by
  refine ⟨by decide, ?_, fun h1 h2 => by simp [formatDesc, h1, h2],
    by decide, by decide, by decide⟩
  have : ("surge" : String) ≠ "clash" := by decide
  simp [formatDesc, this]

/-- Witness for C9: an unrecognized tag falls back to the generic text. -/
theorem formatDesc_branching_witness :
    formatDesc "singbox" = defaultFormatDesc :=
  (formatDesc_branching "singbox").2.2.1 (by decide) (by decide)

/-- C10: a handler request with an empty node list fails with the fixed
message and an empty network trace, for every settings store and network
oracle (so neither the configuration nor the network is consulted); and
`LLMGenerateRules` with an empty client type behaves exactly as with
"clash". -/
theorem handlers_empty_nodes_and_clientType_default (settings gpfl : String → String)
    (parse : String → Option ChatResponse) (net : HttpRequest → NetOutcome)
    (instruction clientType : String) (ns : List ReqNode) :
    LLMOrganizeNodes settings gpfl parse net (some ⟨[], instruction⟩) =
      (.fail "节点列表不能为空", []) ∧
    LLMGenerateRules settings gpfl parse net (some ⟨[], clientType, instruction⟩) =
      (.fail "节点列表不能为空", []) ∧
    LLMGenerateRules settings gpfl parse net (some ⟨ns, "", instruction⟩) =
      LLMGenerateRules settings gpfl parse net (some ⟨ns, "clash", instruction⟩) := by
  refine ⟨rfl, rfl, ?_⟩
  by_cases hn : ns.length = 0
  · simp [LLMGenerateRules, hn]
  · simp [LLMGenerateRules, hn]
